import Mathlib

set_option maxRecDepth 100000

/-!
Verification of the bilingual talent intelligence questionnaire
(`src/script.js`).

Numeric model: every number the program manipulates is a decimal with at
most one fractional digit per factor (table coefficients such as 0.8, the
indicator multipliers 1.1 / 1.2 / 0.3, and integer bonuses).  We embed the
arithmetic in ℤ at a fixed scale of 10⁻⁵ (`scale = 100000`), storing each
one-decimal coefficient as an integer number of tenths.  Multiplying by a
coefficient is `x * c / 10`; starting from the baseline `50 * scale`
(which carries five factors of ten) every such division in the program is
exact — no truncation ever occurs, so the model computes exactly the same
rational values as ideal real arithmetic (see `rawRiskScore_exact` and
`riskScore_mul10` below).
-/

namespace BilingualTalent

/-- Fixed-point scale: all ℤ quantities are in units of 10⁻⁵. -/
def scale : ℤ := 100000

/-- `firmSize` answer values (`src/script.js` radio group `firmSize`). -/
inductive FirmSize
  | small
  | medium
  | large
deriving DecidableEq, Fintype

/-- `bilingualExposure` answer values. -/
inductive BilingualExposure
  | low
  | medium
  | high
deriving DecidableEq, Fintype

/-- `region` answer values. -/
inductive Region
  | brussels
  | antwerp
  | liege
  | other
deriving DecidableEq, Fintype

/-- `hiringPressure` answer values. -/
inductive HiringPressure
  | stable
  | moderate
  | aggressive
deriving DecidableEq, Fintype

/-- A complete, valid answer set (all four fields set to recognized
values); 3 × 3 × 4 × 3 = 108 combinations. -/
structure Answers where
  firmSize : FirmSize
  bilingualExposure : BilingualExposure
  region : Region
  hiringPressure : HiringPressure
deriving DecidableEq

/-- `riskConfig.firmSizeRisk` (script.js lines 43–47), coefficients in
tenths: small 0.8, medium 1.0, large 1.2. -/
def firmSizeRisk : FirmSize → ℤ
  | .small => 8
  | .medium => 10
  | .large => 12

/-- `riskConfig.bilingualRisk` (lines 50–54): low 0.7, medium 1.0,
high 1.4, in tenths. -/
def bilingualRisk : BilingualExposure → ℤ
  | .low => 7
  | .medium => 10
  | .high => 14

/-- `riskConfig.regionalPressure` (lines 57–62): brussels 1.3,
antwerp 1.2, liege 0.9, other 1.0, in tenths. -/
def regionalPressure : Region → ℤ
  | .brussels => 13
  | .antwerp => 12
  | .liege => 9
  | .other => 10

/-- `riskConfig.hiringPressureRisk` (lines 65–69): stable 0.8,
moderate 1.0, aggressive 1.3, in tenths. -/
def hiringPressureRisk : HiringPressure → ℤ
  | .stable => 8
  | .moderate => 10
  | .aggressive => 13

/-- Multiply a scaled value by a coefficient given in tenths
(`x * 0.c` of the source becomes `x * c / 10`). -/
def mulCoeff (x c : ℤ) : ℤ := x * c / 10

/-- The four sub-indicators returned by `calculateRisk`
(script.js lines 213–218), in units of 10⁻⁵. -/
structure Indicators where
  bilingualPressure : ℤ
  scarcityExposure : ℤ
  aiLeverage : ℤ
  eorFeasibility : ℤ
deriving DecidableEq

/-- The record returned by `calculateRisk` (lines 208–219). -/
structure RiskResult where
  riskScore : ℤ
  riskLevel : String
  riskClass : String
  riskDescription : String
  indicators : Indicators
deriving DecidableEq

/-- Lines 171–177: `riskScore = 50`, then the four multiplier
applications, before normalization. -/
def rawRiskScore (a : Answers) : ℤ :=
  mulCoeff
    (mulCoeff
      (mulCoeff
        (mulCoeff (50 * scale) (firmSizeRisk a.firmSize))
        (bilingualRisk a.bilingualExposure))
      (regionalPressure a.region))
    (hiringPressureRisk a.hiringPressure)

/-- `calculateRisk` (script.js lines 167–220): clamp the raw score to
[0, 100], pick a risk level / css class / description by the threshold
ladder, and compute the four sub-indicators (each `Math.min(100, …)`). -/
def calculateRisk (a : Answers) : RiskResult :=
  let riskScore := min (100 * scale) (max 0 (rawRiskScore a))
  let riskLevel :=
    if riskScore < 40 * scale then "Low"
    else if riskScore < 60 * scale then "Moderate"
    else if riskScore < 80 * scale then "Elevated"
    else "Structural Risk"
  let riskClass :=
    if riskScore < 40 * scale then "low"
    else if riskScore < 60 * scale then "moderate"
    else if riskScore < 80 * scale then "elevated"
    else "structural"
  let riskDescription :=
    if riskScore < 40 * scale then
      "Your exposure to bilingual talent attrition is well-managed. Maintain current capability building while monitoring market developments."
    else if riskScore < 60 * scale then
      "Identifiable attrition risk on critical profiles. Proactive retention strategy recommended for capability resilience."
    else if riskScore < 80 * scale then
      "Significant vulnerability to talent loss. Strategic intervention required to secure bilingual capabilities."
    else
      "Critical exposure to bilingual talent scarcity. Reconfiguration of your talent access model required."
  { riskScore := riskScore
    riskLevel := riskLevel
    riskClass := riskClass
    riskDescription := riskDescription
    indicators :=
      { bilingualPressure :=
          min (100 * scale)
            (mulCoeff riskScore 11 + (if a.region = .brussels then 15 * scale else 0))
        scarcityExposure := min (100 * scale) (mulCoeff riskScore 12)
        aiLeverage :=
          min (100 * scale)
            (100 * scale - mulCoeff riskScore 3 +
              (if a.firmSize = .large then 20 * scale else 0))
        eorFeasibility :=
          min (100 * scale)
            ((if a.bilingualExposure = .high then 85 * scale else 60 * scale) +
              (if a.hiringPressure = .aggressive then 15 * scale else 0)) } }

/-- The abstract risk tier of the spec's data model
(Low / Moderate / Elevated / Structural): the branch of the
`calculateRisk` threshold ladder (lines 184–200) that fires. -/
inductive Tier
  | low
  | moderate
  | elevated
  | structural
deriving DecidableEq, Fintype

/-- The tier assigned by the source's ladder for a given answer set. -/
def tier (a : Answers) : Tier :=
  let s := (calculateRisk a).riskScore
  if s < 40 * scale then .low
  else if s < 60 * scale then .moderate
  else if s < 80 * scale then .elevated
  else .structural

/-- The `riskLevel` string of each ladder branch. -/
def tierLevel : Tier → String
  | .low => "Low"
  | .moderate => "Moderate"
  | .elevated => "Elevated"
  | .structural => "Structural Risk"

/-- The `riskClass` string of each ladder branch. -/
def tierClass : Tier → String
  | .low => "low"
  | .moderate => "moderate"
  | .elevated => "elevated"
  | .structural => "structural"

/-- The fixed `riskDescription` string of each ladder branch (the four
variants, lines 187, 191, 195, 199). -/
def tierDescription : Tier → String
  | .low =>
    "Your exposure to bilingual talent attrition is well-managed. Maintain current capability building while monitoring market developments."
  | .moderate =>
    "Identifiable attrition risk on critical profiles. Proactive retention strategy recommended for capability resilience."
  | .elevated =>
    "Significant vulnerability to talent loss. Strategic intervention required to secure bilingual capabilities."
  | .structural =>
    "Critical exposure to bilingual talent scarcity. Reconfiguration of your talent access model required."

/-! ### Spec-side definitions (written from the spec's words, for the
refinement claims) -/

/-- Spec table: firmSize coefficient in tenths
(small 0.8, medium 1.0, large 1.2). -/
def specFirmSizeCoeff : FirmSize → ℤ
  | .small => 8
  | .medium => 10
  | .large => 12

/-- Spec table: bilingual coefficient in tenths (low 0.7, medium 1.0,
high 1.4). -/
def specBilingualCoeff : BilingualExposure → ℤ
  | .low => 7
  | .medium => 10
  | .high => 14

/-- Spec table: region coefficient in tenths (brussels 1.3, antwerp 1.2,
liege 0.9, other 1.0). -/
def specRegionCoeff : Region → ℤ
  | .brussels => 13
  | .antwerp => 12
  | .liege => 9
  | .other => 10

/-- Spec table: hiring coefficient in tenths (stable 0.8, moderate 1.0,
aggressive 1.3). -/
def specHiringCoeff : HiringPressure → ℤ
  | .stable => 8
  | .moderate => 10
  | .aggressive => 13

/-- Spec formula: `raw = 50 · c₁ · c₂ · c₃ · c₄`; with the four
coefficients in tenths this is `50 · scale · c₁c₂c₃c₄ / 10⁴`, written
division-free as `500 · c₁ · c₂ · c₃ · c₄` (in units of 10⁻⁵,
`500 = 50 · scale / 10⁴`). -/
def specRawScore (a : Answers) : ℤ :=
  500 * specFirmSizeCoeff a.firmSize * specBilingualCoeff a.bilingualExposure *
    specRegionCoeff a.region * specHiringCoeff a.hiringPressure

/-- Spec formula: the raw score clamped to [0, 100]. -/
def specScore (a : Answers) : ℤ :=
  min (100 * scale) (max 0 (specRawScore a))

/-- `updateIndicator` colour banding (script.js lines 340–342): class
`low` below 40, `moderate` below 70, `high` otherwise.  Units of
10⁻⁵. -/
def indicatorColorClass (value : ℤ) : String :=
  if value < 40 * scale then "low"
  else if value < 70 * scale then "moderate"
  else "high"

/-! ### Wizard controller (script.js lines 19–29, 83–161)

The navigation handlers mutate a single state record; we model them as
pure functions on an explicit state.  The markup that hosts the wizard
(the radio inputs and the next / previous buttons with their initial
`disabled` attribute) is not under `src/`; per the spec, each step's
"next" control starts disabled and is enabled by the change handler the
moment that step's answer is recorded (script.js lines 91–133). -/

/-- `state.totalSteps` (line 22), a constant. -/
def totalSteps : ℕ := 5

/-- `state.formData` (lines 23–28): the four answers, each starting
unset (`null`). -/
structure FormData where
  firmSize : Option FirmSize
  bilingualExposure : Option BilingualExposure
  region : Option Region
  hiringPressure : Option HiringPressure
deriving DecidableEq

/-- The mutable wizard state (lines 20–29): current step plus the
collected answers. -/
structure WizardState where
  currentStep : ℕ
  formData : FormData
deriving DecidableEq

/-- The initial state (lines 20–29): step 1, no answers. -/
def initialState : WizardState := ⟨1, ⟨none, none, none, none⟩⟩

/-- A radio `change` event: the user selects a value for one of the
four answer fields (lines 93–127). -/
inductive AnswerEvent
  | firmSize (v : FirmSize)
  | bilingualExposure (v : BilingualExposure)
  | region (v : Region)
  | hiringPressure (v : HiringPressure)

/-- The `change` handlers (lines 94–97, 103–106, 113–116, 123–126):
record the selected value.  (The handler also enables that step's next
button; enabledness is recovered below as `Option.isSome` of the
field, since a field, once set, is never unset.) -/
def selectAnswer : AnswerEvent → WizardState → WizardState
  | .firmSize v, s => { s with formData := { s.formData with firmSize := some v } }
  | .bilingualExposure v, s =>
      { s with formData := { s.formData with bilingualExposure := some v } }
  | .region v, s => { s with formData := { s.formData with region := some v } }
  | .hiringPressure v, s =>
      { s with formData := { s.formData with hiringPressure := some v } }

/-- `nextStep` (lines 138–146): increments the step when below
`totalSteps`, otherwise does nothing.  The DOM class swaps and scroll
reset have no bearing on the state. -/
def nextStep (s : WizardState) : WizardState :=
  if s.currentStep < totalSteps then { s with currentStep := s.currentStep + 1 } else s

/-- `prevStep` (lines 148–156): decrements the step when above 1,
otherwise does nothing. -/
def prevStep (s : WizardState) : WizardState :=
  if 1 < s.currentStep then { s with currentStep := s.currentStep - 1 } else s

/-- Modelled from the spec: whether the current step's "next" control
is enabled.  The buttons' initial `disabled` markup is in the page
(not under `src/`); spec §4.1 / §7 state the control starts disabled
and the change handler (lines 96, 105, 115, 125) enables it once that
step's answer is set.  Step 5 (results) has no next button. -/
def nextButtonEnabled (s : WizardState) : Bool :=
  match s.currentStep with
  | 1 => s.formData.firmSize.isSome
  | 2 => s.formData.bilingualExposure.isSome
  | 3 => s.formData.region.isSome
  | 4 => s.formData.hiringPressure.isSome
  | _ => false

/-- The observable `advance` operation: a click on the current step's
next button reaches `nextStep` only when the button is enabled
(lines 99, 109, 119, 129–132). -/
def advance (s : WizardState) : WizardState :=
  if nextButtonEnabled s then nextStep s else s

/-- Whether the current step's required answer has been recorded.
Step 5 is the results step and requires nothing. -/
def stepAnswered (s : WizardState) : Bool :=
  match s.currentStep with
  | 1 => s.formData.firmSize.isSome
  | 2 => s.formData.bilingualExposure.isSome
  | 3 => s.formData.region.isSome
  | 4 => s.formData.hiringPressure.isSome
  | _ => true

/-- `updateProgress` (lines 158–161): the width given to the progress
bar is `(currentStep / totalSteps) * 100` percent.  In units of 10⁻⁵
of a percent, and with the exact division written multiplication-first
(`100 · scale` is divisible by 5, so this equals the exact rational
value of `(currentStep / 5) · 100`). -/
def progressValue (s : WizardState) : ℤ :=
  (s.currentStep : ℤ) * (100 * scale) / (totalSteps : ℤ)

/-- The wizard states reachable from the initial state through the
bound events: answer selections, next-button clicks and prev-button
clicks.  (`updateProgress` runs at `init` and after every step change,
so the displayed bar always shows `progressValue` of the current
state.) -/
inductive Reachable : WizardState → Prop
  | init : Reachable initialState
  | select (e : AnswerEvent) {s : WizardState} : Reachable s → Reachable (selectAnswer e s)
  | next {s : WizardState} : Reachable s → Reachable (advance s)
  | prev {s : WizardState} : Reachable s → Reachable (prevStep s)

/-! ### Raw JavaScript semantics of `calculateRisk` (for the
error-handling claim)

`calculateRisk` reads `state.formData` whose fields are `null` until
set, and indexes the coefficient tables with whatever string is there.
In JavaScript an absent key gives `undefined`, `50 * undefined` is
`NaN`, `Math.max` / `Math.min` propagate `NaN`, and every `<`
comparison against `NaN` is false — nothing ever throws.  We model a
possibly-invalid numeric value as `Option ℤ` with `none` standing for
`NaN` (equally for `undefined` entering arithmetic), and table lookup
as a partial map from the raw answer strings. -/

/-- A raw form field: `null` (never answered) or an arbitrary string
from the DOM. -/
structure RawFormData where
  firmSize : Option String
  bilingualExposure : Option String
  region : Option String
  hiringPressure : Option String

/-- `riskConfig.firmSizeRisk[·]` as a string-keyed lookup (absent key →
`undefined`). -/
def firmSizeRiskTable : String → Option ℤ
  | "small" => some 8
  | "medium" => some 10
  | "large" => some 12
  | _ => none

/-- `riskConfig.bilingualRisk[·]` as a string-keyed lookup. -/
def bilingualRiskTable : String → Option ℤ
  | "low" => some 7
  | "medium" => some 10
  | "high" => some 14
  | _ => none

/-- `riskConfig.regionalPressure[·]` as a string-keyed lookup. -/
def regionalPressureTable : String → Option ℤ
  | "brussels" => some 13
  | "antwerp" => some 12
  | "liege" => some 9
  | "other" => some 10
  | _ => none

/-- `riskConfig.hiringPressureRisk[·]` as a string-keyed lookup. -/
def hiringPressureRiskTable : String → Option ℤ
  | "stable" => some 8
  | "moderate" => some 10
  | "aggressive" => some 13
  | _ => none

/-- Indexing a table with a possibly-`null` field: `obj[null]` is also
`undefined` (the key "null" is not in any table). -/
def lookupCoeff (table : String → Option ℤ) : Option String → Option ℤ
  | none => none
  | some k => table k

/-- JS multiplication by a table coefficient: `NaN`/`undefined` on
either side gives `NaN`. -/
def jsMulCoeff : Option ℤ → Option ℤ → Option ℤ
  | some x, some c => some (mulCoeff x c)
  | _, _ => none

/-- `Math.max(c, ·)` with `NaN` propagation. -/
def jsMax (c : ℤ) : Option ℤ → Option ℤ
  | some x => some (max c x)
  | none => none

/-- `Math.min(c, ·)` with `NaN` propagation. -/
def jsMin (c : ℤ) : Option ℤ → Option ℤ
  | some x => some (min c x)
  | none => none

/-- JS `x < c`: false whenever `x` is `NaN`. -/
def jsLt : Option ℤ → ℤ → Bool
  | some x, c => decide (x < c)
  | none, _ => false

/-- The result record of the raw-semantics `calculateRisk`: same shape,
but the score and the score-derived indicators may be `NaN`. -/
structure RawRiskResult where
  riskScore : Option ℤ
  riskLevel : String
  riskClass : String
  riskDescription : String
  bilingualPressure : Option ℤ
  scarcityExposure : Option ℤ
  aiLeverage : Option ℤ
  eorFeasibility : Option ℤ
deriving DecidableEq

/-- `calculateRisk` (lines 167–220) under raw JavaScript semantics: the
four lookups may yield `undefined`, the multiplier chain then yields
`NaN`, the clamp keeps `NaN`, every ladder guard is false so the
`else` branch fires, and the function still returns a full record —
it never throws. -/
def calculateRiskRaw (fd : RawFormData) : RawRiskResult :=
  let riskScore0 :=
    jsMulCoeff
      (jsMulCoeff
        (jsMulCoeff
          (jsMulCoeff (some (50 * scale)) (lookupCoeff firmSizeRiskTable fd.firmSize))
          (lookupCoeff bilingualRiskTable fd.bilingualExposure))
        (lookupCoeff regionalPressureTable fd.region))
      (lookupCoeff hiringPressureRiskTable fd.hiringPressure)
  let riskScore := jsMin (100 * scale) (jsMax 0 riskScore0)
  let riskLevel :=
    if jsLt riskScore (40 * scale) then "Low"
    else if jsLt riskScore (60 * scale) then "Moderate"
    else if jsLt riskScore (80 * scale) then "Elevated"
    else "Structural Risk"
  let riskClass :=
    if jsLt riskScore (40 * scale) then "low"
    else if jsLt riskScore (60 * scale) then "moderate"
    else if jsLt riskScore (80 * scale) then "elevated"
    else "structural"
  let riskDescription :=
    if jsLt riskScore (40 * scale) then
      "Your exposure to bilingual talent attrition is well-managed. Maintain current capability building while monitoring market developments."
    else if jsLt riskScore (60 * scale) then
      "Identifiable attrition risk on critical profiles. Proactive retention strategy recommended for capability resilience."
    else if jsLt riskScore (80 * scale) then
      "Significant vulnerability to talent loss. Strategic intervention required to secure bilingual capabilities."
    else
      "Critical exposure to bilingual talent scarcity. Reconfiguration of your talent access model required."
  { riskScore := riskScore
    riskLevel := riskLevel
    riskClass := riskClass
    riskDescription := riskDescription
    bilingualPressure :=
      jsMin (100 * scale)
        ((jsMulCoeff riskScore (some 11)).map
          (· + (if fd.region = some "brussels" then 15 * scale else 0)))
    scarcityExposure := jsMin (100 * scale) (jsMulCoeff riskScore (some 12))
    aiLeverage :=
      jsMin (100 * scale)
        ((jsMulCoeff riskScore (some 3)).map
          (fun x => 100 * scale - x + (if fd.firmSize = some "large" then 20 * scale else 0)))
    eorFeasibility :=
      some (min (100 * scale)
        ((if fd.bilingualExposure = some "high" then 85 * scale else 60 * scale) +
          (if fd.hiringPressure = some "aggressive" then 15 * scale else 0))) }

/-- The raw strings a valid answer set puts into `state.formData`. -/
def toRaw (a : Answers) : RawFormData :=
  { firmSize :=
      some (match a.firmSize with | .small => "small" | .medium => "medium" | .large => "large")
    bilingualExposure :=
      some (match a.bilingualExposure with | .low => "low" | .medium => "medium" | .high => "high")
    region :=
      some (match a.region with
            | .brussels => "brussels" | .antwerp => "antwerp" | .liege => "liege" | .other => "other")
    hiringPressure :=
      some (match a.hiringPressure with
            | .stable => "stable" | .moderate => "moderate" | .aggressive => "aggressive") }

/-! ### Interpretation generator (script.js lines 226–304) -/

/-- `getFirmSizeLabel` (lines 278–285).  The `labels[size] || size`
fallback never fires for a valid enum value. -/
def getFirmSizeLabel : FirmSize → String
  | .small => "50–100 professionals"
  | .medium => "100–150 professionals"
  | .large => "150–250 professionals"

/-- `getBilingualLabel` (lines 287–294). -/
def getBilingualLabel : BilingualExposure → String
  | .low => "less than 25%"
  | .medium => "25% to 50%"
  | .high => "more than 50%"

/-- `getRegionLabel` (lines 296–304). -/
def getRegionLabel : Region → String
  | .brussels => "Brussels"
  | .antwerp => "Antwerp/Flanders"
  | .liege => "Liège/Wallonia"
  | .other => "other Belgian regions"

/-- `String.prototype.toLowerCase` restricted to the ASCII strings it
is applied to (`riskLevel.toLowerCase()`, line 235). -/
def lowerString (s : String) : String := ⟨s.data.map Char.toLower⟩

/-- `generateInterpretation` (lines 226–273), reading the answers and
the `riskLevel` / `riskClass` of the risk result.  Each `+=` of the
source appends one chunk; string values are what the claims are
about, so the exact association of the appends is immaterial. -/
def generateInterpretation (fd : Answers) (r : RiskResult) : String :=
  let opening :=
    "" ++
      ("<p><strong>Capability resilience assessment:</strong> Your organization of " ++
        getFirmSizeLabel fd.firmSize ++ " ") ++
      ("with " ++ getBilingualLabel fd.bilingualExposure ++ " bilingual client exposure ") ++
      ("operating in " ++ getRegionLabel fd.region ++ " demonstrates a <strong>" ++
        lowerString r.riskLevel ++ " risk profile</strong>. ")
  let withAnalysis :=
    if r.riskClass = "low" then
      opening ++
        "This favorable position indicates effective capability retention and competitive positioning. </p>" ++
        "<p><strong>Strategic recommendations:</strong></p><ul>" ++
        "<li>Maintain competitive intelligence on compensation trends in your labor market</li>" ++
        "<li>Develop succession pathways for critical bilingual roles</li>" ++
        "<li>Evaluate AI augmentation for junior capability optimization</li></ul>"
    else if r.riskClass = "moderate" then
      opening ++
        "Market signals indicate emerging tension in Belgian bilingual talent markets affecting your region. </p>" ++
        "<p><strong>Strategic recommendations:</strong></p><ul>" ++
        "<li>Conduct immediate compensation benchmarking against public market data (LinkedIn, Glassdoor)</li>" ++
        "<li>Identify flight-risk profiles based on tenure and client exposure</li>" ++
        "<li>Assess EOR viability for non-critical support functions</li></ul>"
    else if r.riskClass = "elevated" then
      opening ++
        "The combination of scale, bilingual dependency, and location creates operational capability risk. </p>" ++
        "<p><strong>Strategic recommendations:</strong></p><ul>" ++
        "<li>Implement urgent retention plan (compensation adjustment, career pathway clarity)</li>" ++
        "<li>Activate EOR channels to decompress local hiring pressure</li>" ++
        "<li>Deploy AI automation on document-intensive workflows</li>" ++
        "<li>Evaluate internal mobility to preserve bilingual capability</li></ul>"
    else
      opening ++
        "Your talent access model is under structural pressure. Bilingual capability scarcity threatens service delivery capacity. </p>" ++
        "<p><strong>Strategic recommendations:</strong></p><ul>" ++
        "<li>Reconfigure compensation structure immediately (significant bilingual premium)</li>" ++
        "<li>Implement multicountry EOR model for European talent access</li>" ++
        "<li>Accelerate AI transformation to reduce headcount dependency</li>" ++
        "<li>Restructure organization to isolate critical bilingual functions</li></ul>"
  withAnalysis ++
    "<p><strong>Market intelligence:</strong> Public recruitment data indicates " ++
    "hiring velocity of +23% for FR-NL bilingual legal profiles in Brussels (LinkedIn, 2024). " ++
    "Bilingual premiums reach 20-35% in law and audit firms (public sources). " ++
    "Without intervention, selective turnover risk on your bilingual talent increases 15-25% annually.</p>"

/-- Spec-side: the opening paragraph template, with the three answer
labels and the lower-cased tier level substituted in. -/
def openingParagraph (fd : Answers) (t : Tier) : String :=
  "<p><strong>Capability resilience assessment:</strong> Your organization of " ++
    getFirmSizeLabel fd.firmSize ++ " " ++
    "with " ++ getBilingualLabel fd.bilingualExposure ++ " bilingual client exposure " ++
    "operating in " ++ getRegionLabel fd.region ++ " demonstrates a <strong>" ++
    lowerString (tierLevel t) ++ " risk profile</strong>. "

/-- Spec-side: the fixed per-tier block — the tier's analysis sentence
followed by its fixed recommendation list (3 items for Low and
Moderate, 4 for Elevated and Structural). -/
def tierBlock : Tier → String
  | .low =>
    "This favorable position indicates effective capability retention and competitive positioning. </p>" ++
      "<p><strong>Strategic recommendations:</strong></p><ul>" ++
      "<li>Maintain competitive intelligence on compensation trends in your labor market</li>" ++
      "<li>Develop succession pathways for critical bilingual roles</li>" ++
      "<li>Evaluate AI augmentation for junior capability optimization</li></ul>"
  | .moderate =>
    "Market signals indicate emerging tension in Belgian bilingual talent markets affecting your region. </p>" ++
      "<p><strong>Strategic recommendations:</strong></p><ul>" ++
      "<li>Conduct immediate compensation benchmarking against public market data (LinkedIn, Glassdoor)</li>" ++
      "<li>Identify flight-risk profiles based on tenure and client exposure</li>" ++
      "<li>Assess EOR viability for non-critical support functions</li></ul>"
  | .elevated =>
    "The combination of scale, bilingual dependency, and location creates operational capability risk. </p>" ++
      "<p><strong>Strategic recommendations:</strong></p><ul>" ++
      "<li>Implement urgent retention plan (compensation adjustment, career pathway clarity)</li>" ++
      "<li>Activate EOR channels to decompress local hiring pressure</li>" ++
      "<li>Deploy AI automation on document-intensive workflows</li>" ++
      "<li>Evaluate internal mobility to preserve bilingual capability</li></ul>"
  | .structural =>
    "Your talent access model is under structural pressure. Bilingual capability scarcity threatens service delivery capacity. </p>" ++
      "<p><strong>Strategic recommendations:</strong></p><ul>" ++
      "<li>Reconfigure compensation structure immediately (significant bilingual premium)</li>" ++
      "<li>Implement multicountry EOR model for European talent access</li>" ++
      "<li>Accelerate AI transformation to reduce headcount dependency</li>" ++
      "<li>Restructure organization to isolate critical bilingual functions</li></ul>"

/-- Spec-side: the fixed closing market-context paragraph, with its
literal percentage figures. -/
def marketContext : String :=
  "<p><strong>Market intelligence:</strong> Public recruitment data indicates " ++
    "hiring velocity of +23% for FR-NL bilingual legal profiles in Brussels (LinkedIn, 2024). " ++
    "Bilingual premiums reach 20-35% in law and audit firms (public sources). " ++
    "Without intervention, selective turnover risk on your bilingual talent increases 15-25% annually.</p>"

/-! ### Theorems -/

/-! ### Exactness of the fixed-point embedding -/

/-- The chained `· * c / 10` steps in `rawRiskScore` never truncate: the
raw score is literally `500 · c₁ · c₂ · c₃ · c₄` (units of 10⁻⁵), so the
ℤ model agrees with exact rational arithmetic. -/
theorem rawRiskScore_exact :
    ∀ a : Answers,
      rawRiskScore a =
        500 * firmSizeRisk a.firmSize * bilingualRisk a.bilingualExposure *
          regionalPressure a.region * hiringPressureRisk a.hiringPressure := by
  intro a
  obtain ⟨f, b, r, h⟩ := a
  revert f b r h
  decide

/-- The clamped score is always a multiple of ten, so the indicator
multiplications `· * 11 / 10`, `· * 12 / 10`, `· * 3 / 10` are exact
as well. -/
theorem riskScore_mul10 :
    ∀ a : Answers, (10 : ℤ) ∣ (calculateRisk a).riskScore := by
  intro a
  obtain ⟨f, b, r, h⟩ := a
  revert f b r h
  decide

/-! ### Claims about the scoring engine -/

/-- C1: for every valid answer combination, the risk score computed by
`calculateRisk` equals 50 multiplied by the four table coefficients
(firmSize small 0.8 / medium 1.0 / large 1.2; bilingual low 0.7 /
medium 1.0 / high 1.4; region brussels 1.3 / antwerp 1.2 / liege 0.9 /
other 1.0; hiring stable 0.8 / moderate 1.0 / aggressive 1.3), clamped
to [0, 100]; the result lies in [0, 100].  (`calculateRisk` is a pure
function of the answers, so the score is deterministic.)  All values in
units of 10⁻⁵. -/
theorem riskScore_formula :
    ∀ a : Answers,
      (calculateRisk a).riskScore = specScore a ∧
      0 ≤ (calculateRisk a).riskScore ∧
      (calculateRisk a).riskScore ≤ 100 * scale := by
  intro a
  obtain ⟨f, b, r, h⟩ := a
  revert f b r h
  decide

/-- C2: for every valid answer combination, the assigned tier follows
the exact thresholds (score < 40 → Low, 40 ≤ score < 60 → Moderate,
60 ≤ score < 80 → Elevated, score ≥ 80 → Structural), and the
`riskLevel` and `riskDescription` strings returned by `calculateRisk`
are exactly the fixed one-per-tier variants (`tierLevel`,
`tierDescription`; four description variants in total).  Thresholds in
units of 10⁻⁵. -/
theorem tier_thresholds :
    ∀ a : Answers,
      (tier a = .low ↔ (calculateRisk a).riskScore < 40 * scale) ∧
      (tier a = .moderate ↔
        40 * scale ≤ (calculateRisk a).riskScore ∧
          (calculateRisk a).riskScore < 60 * scale) ∧
      (tier a = .elevated ↔
        60 * scale ≤ (calculateRisk a).riskScore ∧
          (calculateRisk a).riskScore < 80 * scale) ∧
      (tier a = .structural ↔ 80 * scale ≤ (calculateRisk a).riskScore) ∧
      (calculateRisk a).riskLevel = tierLevel (tier a) ∧
      (calculateRisk a).riskClass = tierClass (tier a) ∧
      (calculateRisk a).riskDescription = tierDescription (tier a) := by
  intro a
  obtain ⟨f, b, r, h⟩ := a
  revert f b r h
  decide

/-- The four tier descriptions are pairwise distinct, so each tier
carries exactly one description and no two tiers share one. -/
theorem tierDescription_injective : Function.Injective tierDescription := by
  decide

/-- C3: for every valid answer combination the four sub-indicators equal
the spec formulas — `bilingualPressure = score·1.1 + (15 if brussels)`,
`scarcityExposure = score·1.2`, `aiLeverage = 100 − score·0.3 +
(20 if large)`, `eorFeasibility = (85 if high else 60) +
(15 if aggressive)` — each independently clamped to [0, 100] (including
the lower bound, which the raw formulas never go below), and each lies
in [0, 100].  Units of 10⁻⁵; `mulCoeff x 11` is `x · 1.1` etc. -/
theorem indicators_formula :
    ∀ a : Answers,
      (calculateRisk a).indicators.bilingualPressure =
        min (100 * scale)
          (max 0 (mulCoeff (specScore a) 11 +
            (if a.region = .brussels then 15 * scale else 0))) ∧
      (calculateRisk a).indicators.scarcityExposure =
        min (100 * scale) (max 0 (mulCoeff (specScore a) 12)) ∧
      (calculateRisk a).indicators.aiLeverage =
        min (100 * scale)
          (max 0 (100 * scale - mulCoeff (specScore a) 3 +
            (if a.firmSize = .large then 20 * scale else 0))) ∧
      (calculateRisk a).indicators.eorFeasibility =
        min (100 * scale)
          (max 0 ((if a.bilingualExposure = .high then 85 * scale else 60 * scale) +
            (if a.hiringPressure = .aggressive then 15 * scale else 0))) ∧
      0 ≤ (calculateRisk a).indicators.bilingualPressure ∧
      (calculateRisk a).indicators.bilingualPressure ≤ 100 * scale ∧
      0 ≤ (calculateRisk a).indicators.scarcityExposure ∧
      (calculateRisk a).indicators.scarcityExposure ≤ 100 * scale ∧
      0 ≤ (calculateRisk a).indicators.aiLeverage ∧
      (calculateRisk a).indicators.aiLeverage ≤ 100 * scale ∧
      0 ≤ (calculateRisk a).indicators.eorFeasibility ∧
      (calculateRisk a).indicators.eorFeasibility ≤ 100 * scale := by
  intro a
  obtain ⟨f, b, r, h⟩ := a
  revert f b r h
  decide

/-- C6: the worked examples.  (small, low, liege, stable) gives raw
score 50 · 0.8 · 0.7 · 0.9 · 0.8 = 20.16 (= 2016000 · 10⁻⁵) and tier
Low; (medium, medium, other, moderate) gives raw score 50 (= 5000000 ·
10⁻⁵) and tier Moderate.  In both cases the clamp leaves the raw score
unchanged. -/
theorem worked_examples :
    rawRiskScore ⟨.small, .low, .liege, .stable⟩ = 2016000 ∧
    (calculateRisk ⟨.small, .low, .liege, .stable⟩).riskScore = 2016000 ∧
    tier ⟨.small, .low, .liege, .stable⟩ = .low ∧
    rawRiskScore ⟨.medium, .medium, .other, .moderate⟩ = 5000000 ∧
    (calculateRisk ⟨.medium, .medium, .other, .moderate⟩).riskScore = 5000000 ∧
    tier ⟨.medium, .medium, .other, .moderate⟩ = .moderate := by
  decide

/-- C9: for every valid answer combination the `aiLeverage` indicator
lies in [70, 100] (the clamped score is at most 100, so
`100 − score·0.3 + bonus` is never below 70), and therefore its bar
always receives the `high` colour band (value ≥ 70). -/
theorem aiLeverage_band :
    ∀ a : Answers,
      70 * scale ≤ (calculateRisk a).indicators.aiLeverage ∧
      (calculateRisk a).indicators.aiLeverage ≤ 100 * scale ∧
      indicatorColorClass (calculateRisk a).indicators.aiLeverage = "high" := by
  intro a
  obtain ⟨f, b, r, h⟩ := a
  revert f b r h
  decide

/-- C10: `eorFeasibility` depends only on `bilingualExposure` and
`hiringPressure` — two answer sets agreeing on those two fields but
with arbitrary firmSize and region give the same value — and it always
takes one of the four values 60, 75, 85, 100 (× 10⁻⁵ units). -/
theorem eorFeasibility_noninterference :
    ∀ (be : BilingualExposure) (hp : HiringPressure)
      (f₁ f₂ : FirmSize) (r₁ r₂ : Region),
      (calculateRisk ⟨f₁, be, r₁, hp⟩).indicators.eorFeasibility =
        (calculateRisk ⟨f₂, be, r₂, hp⟩).indicators.eorFeasibility ∧
      ((calculateRisk ⟨f₁, be, r₁, hp⟩).indicators.eorFeasibility = 60 * scale ∨
       (calculateRisk ⟨f₁, be, r₁, hp⟩).indicators.eorFeasibility = 75 * scale ∨
       (calculateRisk ⟨f₁, be, r₁, hp⟩).indicators.eorFeasibility = 85 * scale ∨
       (calculateRisk ⟨f₁, be, r₁, hp⟩).indicators.eorFeasibility = 100 * scale) := by
  decide

/-- C5: on any valid wizard state (step between 1 and 5), `advance` is
a silent no-op — state, answers included, unchanged — whenever the
current step is the last one or the current step's required answer is
unset, and otherwise increments the step by one leaving the answers
unchanged; `retreat` (`prevStep`) is a no-op at step 1 and otherwise
decrements the step by one, leaving the answers unchanged. -/
theorem wizard_navigation (s : WizardState)
    (h₁ : 1 ≤ s.currentStep) (h₂ : s.currentStep ≤ totalSteps) :
    ((s.currentStep = totalSteps ∨ stepAnswered s = false) → advance s = s) ∧
    (s.currentStep ≠ totalSteps → stepAnswered s = true →
      advance s = ⟨s.currentStep + 1, s.formData⟩) ∧
    (s.currentStep = 1 → prevStep s = s) ∧
    (s.currentStep ≠ 1 → prevStep s = ⟨s.currentStep - 1, s.formData⟩) := by
  obtain ⟨step, fd⟩ := s
  obtain ⟨f, b, r, h⟩ := fd
  simp only [totalSteps] at h₂ ⊢
  interval_cases step <;> revert f b r h <;> decide

/-- Witness for `wizard_navigation`: the initial state (step 1, nothing
answered) satisfies the hypotheses; there `advance` is a no-op (the
required field is unset) and `prevStep` is a no-op (step 1). -/
theorem wizard_navigation_witness :
    1 ≤ initialState.currentStep ∧ initialState.currentStep ≤ totalSteps ∧
    advance initialState = initialState ∧ prevStep initialState = initialState :=
  ⟨by decide, by decide,
    (wizard_navigation initialState (by decide) (by decide)).1 (Or.inr (by decide)),
    ((wizard_navigation initialState (by decide) (by decide)).2).2.1 (by decide)⟩

/-- C8: in every reachable wizard state the step lies in [1, 5] and
the progress indicator value equals `currentStep / totalSteps · 100`
percent — exactly `currentStep · 20` percent (`20 · scale` in 10⁻⁵
units), as the division is exact. -/
theorem progress_indicator (s : WizardState) (h : Reachable s) :
    1 ≤ s.currentStep ∧ s.currentStep ≤ totalSteps ∧
    progressValue s = (s.currentStep : ℤ) * (20 * scale) := by
  have hstep : 1 ≤ s.currentStep ∧ s.currentStep ≤ totalSteps := by
    induction h with
    | init => exact ⟨le_refl 1, by decide⟩
    | select e _ ih => cases e <;> exact ih
    | next _ ih =>
        rename_i t _
        unfold advance nextStep
        rcases ih with ⟨ih₁, ih₂⟩
        by_cases hb : nextButtonEnabled t
        · simp only [hb, if_true]
          by_cases hlt : t.currentStep < totalSteps
          · simp only [hlt, if_true]
            exact ⟨Nat.le_succ_of_le ih₁, hlt⟩
          · simp only [hlt, if_false]
            exact ⟨ih₁, ih₂⟩
        · simp only [hb, if_false]
          exact ⟨ih₁, ih₂⟩
    | prev _ ih =>
        rename_i t _
        unfold prevStep
        rcases ih with ⟨ih₁, ih₂⟩
        by_cases hgt : 1 < t.currentStep
        · simp only [hgt, if_true]
          exact ⟨Nat.le_sub_one_of_lt hgt, le_trans (Nat.sub_le _ _) ih₂⟩
        · simp only [hgt, if_false]
          exact ⟨ih₁, ih₂⟩
  refine ⟨hstep.1, hstep.2, ?_⟩
  unfold progressValue totalSteps scale
  push_cast
  omega

/-- Witness for `progress_indicator`: the initial state is reachable;
its step is 1 and its progress value is 20 % (`20 · scale` in 10⁻⁵
units). -/
theorem progress_indicator_witness :
    1 ≤ initialState.currentStep ∧ initialState.currentStep ≤ totalSteps ∧
    progressValue initialState = (initialState.currentStep : ℤ) * (20 * scale) :=
  progress_indicator initialState Reachable.init

/-- On every valid answer set the raw JavaScript semantics agrees with
the clean model `calculateRisk`: same score, strings and indicators. -/
theorem calculateRiskRaw_agrees :
    ∀ a : Answers,
      (calculateRiskRaw (toRaw a)).riskScore = some (calculateRisk a).riskScore ∧
      (calculateRiskRaw (toRaw a)).riskLevel = (calculateRisk a).riskLevel ∧
      (calculateRiskRaw (toRaw a)).riskClass = (calculateRisk a).riskClass ∧
      (calculateRiskRaw (toRaw a)).riskDescription = (calculateRisk a).riskDescription ∧
      (calculateRiskRaw (toRaw a)).bilingualPressure =
        some (calculateRisk a).indicators.bilingualPressure ∧
      (calculateRiskRaw (toRaw a)).scarcityExposure =
        some (calculateRisk a).indicators.scarcityExposure ∧
      (calculateRiskRaw (toRaw a)).aiLeverage =
        some (calculateRisk a).indicators.aiLeverage ∧
      (calculateRiskRaw (toRaw a)).eorFeasibility =
        some (calculateRisk a).indicators.eorFeasibility := by
  intro a
  obtain ⟨f, b, r, h⟩ := a
  revert f b r h
  decide

/-- `jsMulCoeff` absorbs `NaN` on the left. -/
theorem jsMulCoeff_none_left (y : Option ℤ) : jsMulCoeff none y = none := by
  cases y <;> rfl

/-- `jsMulCoeff` absorbs `undefined`/`NaN` on the right. -/
theorem jsMulCoeff_none_right (x : Option ℤ) : jsMulCoeff x none = none := by
  cases x <;> rfl

/-- C4 (counterexample): scoring with `firmSize` still unset does not
reject — `calculateRiskRaw` returns an ordinary risk result whose
score is `NaN` and whose level, class and description are the
Structural-Risk variants (every `NaN` comparison in the ladder is
false, so the final `else` fires). -/
theorem unset_answer_produces_result :
    calculateRiskRaw ⟨none, some "low", some "liege", some "stable"⟩ =
      { riskScore := none
        riskLevel := "Structural Risk"
        riskClass := "structural"
        riskDescription :=
          "Critical exposure to bilingual talent scarcity. Reconfiguration of your talent access model required."
        bilingualPressure := none
        scarcityExposure := none
        aiLeverage := none
        eorFeasibility := some (60 * scale) } := by
  decide

/-- C4 (amended): if any of the four answer fields is unset or holds a
value with no entry in its coefficient table, `calculateRisk` does not
reject: it still returns a risk result, whose score is `NaN` and whose
level / class / description are the Structural-Risk variants. -/
theorem unrecognized_answer_result (fd : RawFormData)
    (h : lookupCoeff firmSizeRiskTable fd.firmSize = none ∨
         lookupCoeff bilingualRiskTable fd.bilingualExposure = none ∨
         lookupCoeff regionalPressureTable fd.region = none ∨
         lookupCoeff hiringPressureRiskTable fd.hiringPressure = none) :
    (calculateRiskRaw fd).riskScore = none ∧
    (calculateRiskRaw fd).riskLevel = "Structural Risk" ∧
    (calculateRiskRaw fd).riskClass = "structural" ∧
    (calculateRiskRaw fd).riskDescription =
      "Critical exposure to bilingual talent scarcity. Reconfiguration of your talent access model required." := by
  have hnone :
      jsMulCoeff
        (jsMulCoeff
          (jsMulCoeff
            (jsMulCoeff (some (50 * scale)) (lookupCoeff firmSizeRiskTable fd.firmSize))
            (lookupCoeff bilingualRiskTable fd.bilingualExposure))
          (lookupCoeff regionalPressureTable fd.region))
        (lookupCoeff hiringPressureRiskTable fd.hiringPressure) = none := by
    rcases h with h | h | h | h <;>
      simp [h, jsMulCoeff_none_left, jsMulCoeff_none_right, jsMulCoeff]
  unfold calculateRiskRaw
  rw [hnone]
  exact ⟨rfl, rfl, rfl, rfl⟩

/-- Witness for `unrecognized_answer_result`: a form whose `firmSize`
radio reports a value absent from the table ("gigantic"). -/
theorem unrecognized_answer_result_witness :
    lookupCoeff firmSizeRiskTable (some "gigantic") = none ∧
    (calculateRiskRaw ⟨some "gigantic", some "low", some "liege", some "stable"⟩).riskScore
        = none ∧
    (calculateRiskRaw ⟨some "gigantic", some "low", some "liege", some "stable"⟩).riskLevel
        = "Structural Risk" :=
  ⟨by decide,
    (unrecognized_answer_result ⟨some "gigantic", some "low", some "liege", some "stable"⟩
      (Or.inl (by decide))).1,
    (unrecognized_answer_result ⟨some "gigantic", some "low", some "liege", some "stable"⟩
      (Or.inl (by decide))).2.1⟩

/-- String append is associative (it is append of the underlying
character lists). -/
theorem string_append_assoc (a b c : String) : (a ++ b) ++ c = a ++ (b ++ c) := by
  cases a with | mk da =>
  cases b with | mk db =>
  cases c with | mk dc =>
  show String.mk ((da ++ db) ++ dc) = String.mk (da ++ (db ++ dc))
  rw [List.append_assoc]

/-- The empty string is a left unit for append. -/
theorem string_empty_append (s : String) : "" ++ s = s := by
  cases s with | mk d =>
  show String.mk ([] ++ d) = String.mk d
  rw [List.nil_append]

/-- The `riskLevel` and `riskClass` strings returned by `calculateRisk`
are the per-tier variants of the ladder. -/
theorem riskLevel_riskClass_eq :
    ∀ a : Answers,
      (calculateRisk a).riskLevel = tierLevel (tier a) ∧
      (calculateRisk a).riskClass = tierClass (tier a) := by
  intro a
  obtain ⟨f, b, r, h⟩ := a
  revert f b r h
  decide

/-- Evaluating `generateInterpretation` on any risk result whose level
and class strings are those of tier `t` yields exactly the opening
paragraph, then the per-tier block, then the market-context paragraph. -/
theorem generateInterpretation_eval (fd : Answers) (r : RiskResult) (t : Tier)
    (hl : r.riskLevel = tierLevel t) (hc : r.riskClass = tierClass t) :
    generateInterpretation fd r =
      openingParagraph fd t ++ tierBlock t ++ marketContext := by
  cases t <;>
    (simp only [tierLevel] at hl
     simp only [tierClass] at hc
     simp only [generateInterpretation, hl, hc, String.reduceEq, reduceIte,
       openingParagraph, tierBlock, marketContext, tierLevel, string_append_assoc,
       string_empty_append])

/-- C7: for every valid answer combination the generated
interpretation text is exactly the opening paragraph (with the
firmSize / bilingualExposure / region labels and the lower-cased tier
level substituted), followed verbatim by the fixed per-tier
recommendation block, followed by the fixed market-context paragraph;
the only branching is the four-way tier selection (`tierBlock` is a
function of the tier alone). -/
theorem interpretation_structure :
    ∀ a : Answers,
      generateInterpretation a (calculateRisk a) =
        openingParagraph a (tier a) ++ tierBlock (tier a) ++ marketContext :=
  fun a =>
    generateInterpretation_eval a (calculateRisk a) (tier a)
      (riskLevel_riskClass_eq a).1 (riskLevel_riskClass_eq a).2

end BilingualTalent
